import Mathlib

/-!
Shallow embedding of the context-budgeting and continuity-state subsystem of
the `bob` runtime (`bob/runtime/context_window.py`, `bob/runtime/state.py`,
`bob/runtime/orchestrator.py`), together with theorems settling the claims
about it.

Conventions used throughout:
* Python `str` is Lean `String`; `str.strip()` / `str.split()` / `str.lower()`
  are modelled over the ASCII whitespace set Python uses for these operations.
* Python `int` is Lean `Int` where sign matters and `Nat` where the value is a
  length/count by construction.
* A Python call that may raise is modelled as returning `Except Unit α`; a
  `try/except` becomes a `match` on that result.
* Mutable lists are values; an explicit two-cell heap is introduced where an
  aliasing/frame question is at stake (see `PyListHeap`).
-/

namespace Bob

/-- The ASCII whitespace characters recognised by Python's `str.strip`,
`str.split` and the regex class `\s`. -/
def isPySpace (c : Char) : Bool :=
  c = ' ' || c = '\t' || c = '\n' || c = '\r' || c = '\x0b' || c = '\x0c'

/-- Strip leading and trailing whitespace from a character list. -/
def stripChars (l : List Char) : List Char :=
  ((l.dropWhile isPySpace).reverse.dropWhile isPySpace).reverse

/-- Model of Python `str.strip()`. -/
def pyStrip (s : String) : String :=
  ⟨stripChars s.data⟩

/-- Helper for `pyWords`: accumulate the current word (reversed) while
scanning. -/
def wordsAux : List Char → List Char → List (List Char)
  | [], acc => if acc.isEmpty then [] else [acc.reverse]
  | c :: rest, acc =>
    if isPySpace c then
      if acc.isEmpty then wordsAux rest [] else acc.reverse :: wordsAux rest []
    else wordsAux rest (c :: acc)

/-- Model of Python `str.split()` with no separator: split on whitespace runs,
dropping empty pieces. -/
def pyWords (s : String) : List String :=
  (wordsAux s.data []).map fun w => ⟨w⟩

/-- Model of Python `str.lower()` (ASCII). -/
def pyLower (s : String) : String :=
  ⟨s.data.map Char.toLower⟩

/-- Model of `" ".join(s.strip().split())`: collapse internal whitespace runs to single
spaces and strip the ends. Used by `_clean_continuity_list`. -/
def collapseWS (s : String) : String :=
  String.intercalate " " (pyWords (pyStrip s))

/-- Model of `_norm` from `_merge_open_threads`:
`" ".join(text.strip().lower().split())`. -/
def normText (s : String) : String :=
  String.intercalate " " (pyWords (pyLower (pyStrip s)))

/-! ## Tokenizer adapter (`OSS20BTokenizer`)

The underlying `tokenizers.Tokenizer` is an external dependency (not part of
this repository); it is modelled abstractly as a pair of total functions
`encode`/`decode`.  `count` and `truncate_to_tokens` below are the repository's
wrapper methods, translated from `context_window.py`. -/

structure Tok where
  encode : String → List Nat
  decode : List Nat → String

/-- Model of `OSS20BTokenizer.count`: `len(self._tok.encode(text or "").ids)`. -/
def Tok.count (tok : Tok) (text : String) : Nat :=
  (tok.encode text).length

/-- Model of `OSS20BTokenizer.truncate_to_tokens`. -/
def truncate_to_tokens (tok : Tok) (text : String) (maxTokens : Int) : String :=
  if maxTokens ≤ 0 then ""
  else
    let ids := tok.encode text
    if (ids.length : Int) ≤ maxTokens then text
    else tok.decode (ids.take maxTokens.toNat)

/-! ## Context budget and window manager (`context_window.py`) -/

structure ContextBudget where
  model_window_tokens : Int
  summary_target_tokens : Int
  live_chat_target_tokens : Int
  reserved_buffer_tokens : Int

/-- A live-chat turn: the Python dict `{"role": ..., "content": ...}`.
(`m.get("role") or ""` on a missing key yields `""`, so both fields are
total strings.) -/
structure Turn where
  role : String
  content : String
deriving DecidableEq

/-- Model of `format_live_chat`. -/
def format_live_chat (messages : List Turn) : String :=
  let lines := messages.foldr
    (fun m acc =>
      let role := pyLower (pyStrip m.role)
      let content := pyStrip m.content
      if content = "" then acc
      else if role = "assistant" then ("Assistant: " ++ content) :: acc
      else ("User: " ++ content) :: acc)
    []
  String.intercalate "\n" lines

/-- Model of `keep_last_turns`:  `n_turns = max(1, int(turns or 1))`;
`max_messages = n_turns * 2`; keep the whole list when it is short enough,
otherwise the last `max_messages` entries. -/
def keep_last_turns (messages : List Turn) (turns : Int) : List Turn :=
  let t0 : Int := if turns = 0 then 1 else turns
  let n_turns : Int := max 1 t0
  let max_messages : Int := n_turns * 2
  if (messages.length : Int) ≤ max_messages then messages
  else messages.drop (messages.length - max_messages.toNat)

/-- The metrics dict returned by `ContextWindowManager.count_buckets`. -/
structure Metrics where
  system_block : Nat
  conversation_summary : Nat
  live_chat_buffer : Nat
  tool_injections : Nat
  reserved_buffer : Int
  current_user_input : Nat
  used_without_reserve : Nat
  total_with_reserve : Int
  model_window : Int
  pressure : Bool
deriving DecidableEq

/-- Model of `ContextWindowManager.count_buckets`. -/
def count_buckets (tok : Tok) (budget : ContextBudget)
    (system_block conversation_summary : String)
    (live_chat_messages : List Turn)
    (tool_injections current_user_input : String) : Metrics :=
  let summary_block :=
    pyStrip ("Conversation Summary (non-authoritative):\n" ++ pyStrip conversation_summary)
  let live_block := format_live_chat live_chat_messages
  let user_block := "Current User Input:\n" ++ pyStrip current_user_input
  let system_tokens := tok.count system_block
  let summary_tokens := tok.count summary_block
  let live_chat_tokens := tok.count live_block
  let tool_tokens := tok.count tool_injections
  let current_input_tokens := tok.count user_block
  let reserved_tokens : Int := max 0 budget.reserved_buffer_tokens
  let used_without_reserve :=
    system_tokens + summary_tokens + live_chat_tokens + tool_tokens + current_input_tokens
  let total_with_reserve : Int := (used_without_reserve : Int) + reserved_tokens
  { system_block := system_tokens
    conversation_summary := summary_tokens
    live_chat_buffer := live_chat_tokens
    tool_injections := tool_tokens
    reserved_buffer := reserved_tokens
    current_user_input := current_input_tokens
    used_without_reserve := used_without_reserve
    total_with_reserve := total_with_reserve
    model_window := budget.model_window_tokens
    pressure := total_with_reserve > budget.model_window_tokens }

/-- The eviction loop of `ContextWindowManager.fit_live_chat_to_budget`:
`while msgs and metrics["pressure"]: msgs.pop(0); recompute`.  The initial
`msgs = list(live_chat_messages or [])` copy is modelled separately in
`PyListHeap` below; here lists are values. -/
def fit_live_chat_to_budget (tok : Tok) (budget : ContextBudget)
    (system_block conversation_summary : String)
    (tool_injections current_user_input : String) :
    List Turn → List Turn × Metrics
  | [] =>
    ([], count_buckets tok budget system_block conversation_summary []
        tool_injections current_user_input)
  | m :: rest =>
    let metrics := count_buckets tok budget system_block conversation_summary (m :: rest)
        tool_injections current_user_input
    if metrics.pressure then
      fit_live_chat_to_budget tok budget system_block conversation_summary
        tool_injections current_user_input rest
    else (m :: rest, metrics)

/-- Model of `render_chat_first_prompt`.  The orchestrator only ever passes
`tool_injections` as `""` or leaves it `None`; both are falsy, so `None` is
modelled as `""`. -/
def render_chat_first_prompt (conversation_summary : String)
    (live_chat_messages : List Turn) (current_user_input : String)
    (tool_injections : String) : String :=
  let summaryPart := pyStrip conversation_summary
  let livePart := format_live_chat live_chat_messages
  let blocks :=
    ["Conversation Summary (non-authoritative):",
     if summaryPart = "" then "(none)" else summaryPart,
     "",
     "Live Chat (recent turns):",
     if livePart = "" then "(none)" else livePart]
  let blocks :=
    if tool_injections ≠ "" ∧ pyStrip tool_injections ≠ "" then
      blocks ++ ["", pyStrip tool_injections]
    else blocks
  let blocks := blocks ++ ["", "Current User Input:", pyStrip current_user_input]
  pyStrip (String.intercalate "\n" blocks)

/-! ## Continuity state store (`state.py`)

Affect scalars are Python floats used only for comparison and pass-through
(never arithmetic), so they are modelled exactly as rationals. -/

structure IdentityState where
  system_id : String := "bob"
  display_name : String := "Bob"
  agent_name : String := "Bob"
  version : String := "v1"
  role : String := "Magic playing homie"
  core_directive : String :=
    "Maintain coherent reasoning, assist the user, and preserve continuity across turns."
  tone_baseline : String := "curious, grounded, lightly irreverent"
  tone_active : String := "engaged"
deriving DecidableEq

structure AffectState where
  curiosity : ℚ := 0.75
  calm : ℚ := 0.6
  confidence : ℚ := 0.55
  tension : ℚ := 0.2
  engagement : ℚ := 0.65
deriving DecidableEq

/-- Model of `_clamp01(x, default)`: a missing key or a value `float()` rejects is
`none` and yields the default; a numeric value is clamped to `[0, 1]`. -/
def clamp01 (x : Option ℚ) (default : ℚ) : ℚ :=
  match x with
  | none => default
  | some v => if v < 0 then 0 else if v > 1 then 1 else v

/-- The dict argument accepted by `AffectState.from_dict`. -/
structure AffectDict where
  curiosity : Option ℚ := none
  calm : Option ℚ := none
  confidence : Option ℚ := none
  tension : Option ℚ := none
  engagement : Option ℚ := none
deriving DecidableEq

/-- Model of `AffectState.from_dict`. -/
def AffectState.from_dict (obj : AffectDict) : AffectState :=
  { curiosity := clamp01 obj.curiosity 0.75
    calm := clamp01 obj.calm 0.6
    confidence := clamp01 obj.confidence 0.55
    tension := clamp01 obj.tension 0.2
    engagement := clamp01 obj.engagement 0.65 }

structure IntegrityState where
  last_turn_consistent : Bool := true
  contradictions_detected : Bool := false
deriving DecidableEq

/-- The dict argument accepted by `IntegrityState.from_dict`; `none` models a
missing key (`obj.get(k, default)`). -/
structure IntegrityDict where
  last_turn_consistent : Option Bool := none
  contradictions_detected : Option Bool := none
deriving DecidableEq

/-- Model of `IntegrityState.from_dict`. -/
def IntegrityState.from_dict (obj : IntegrityDict) : IntegrityState :=
  { last_turn_consistent := obj.last_turn_consistent.getD true
    contradictions_detected := obj.contradictions_detected.getD false }

/-- The `context_metrics` dict the orchestrator commits each turn. -/
structure CtxMetrics where
  pre : Metrics
  fit : Metrics
  post : Metrics
  rebuild_triggered : Bool
deriving DecidableEq

/-- Model of `BobState`: the authoritative continuity record.  `context_metrics`
defaults to the empty dict, modelled as `none`. -/
structure BobState where
  identity : IdentityState := {}
  affect_state : AffectState := {}
  integrity : IntegrityState := {}
  active_context : List String := []
  open_threads : List String := []
  conversation_summary : String := ""
  live_chat : List Turn := []
  last_updated_utc : Option String := none
  turn_counter : Int := 0
  context_metrics : Option CtxMetrics := none
  last_context_rebuild : Option String := none
deriving DecidableEq

/-- The keyword arguments of `StateStore.commit`; every field is optional and
defaults to `None`. -/
structure CommitArgs where
  active_context : Option (List String) := none
  open_threads : Option (List String) := none
  affect_state : Option AffectDict := none
  integrity : Option IntegrityDict := none
  tone_active : Option String := none
  conversation_summary : Option String := none
  live_chat : Option (List Turn) := none
  context_metrics : Option CtxMetrics := none
  last_context_rebuild : Option String := none
deriving DecidableEq

/-- Model of `StateStore.commit`.  `now` is the value `now_utc()` returns during the
call.  `snapshot()` is a deep copy of the held state, so the state value below
is exactly what the immediately following `snapshot()` reflects. -/
def commit (now : String) (s : BobState) (a : CommitArgs) : BobState :=
  let s := match a.active_context with
    | none => s
    | some v => { s with active_context := v }
  let s := match a.open_threads with
    | none => s
    | some v => { s with open_threads := v }
  let s := match a.affect_state with
    | none => s
    | some v => { s with affect_state := AffectState.from_dict v }
  let s := match a.integrity with
    | none => s
    | some v => { s with integrity := IntegrityState.from_dict v }
  let s := match a.tone_active with
    | none => s
    | some v => { s with identity := { s.identity with tone_active := v } }
  let s := match a.conversation_summary with
    | none => s
    | some v => { s with conversation_summary := v }
  let s := match a.live_chat with
    | none => s
    | some v => { s with live_chat := v }
  let s := match a.context_metrics with
    | none => s
    | some v => { s with context_metrics := some v }
  let s := match a.last_context_rebuild with
    | none => s
    | some v => { s with last_context_rebuild := some v }
  { s with turn_counter := s.turn_counter + 1, last_updated_utc := some now }

/-! ## Orchestrator (`orchestrator.py`)

The chat client is an external collaborator (`ChatClient` protocol): it is
modelled as a pair of total functions.  `chatText` is keyed by the user-message
content and the `max_tokens` argument (the system prompt, temperature and
timeout are constants at each call site); `.error ()` models a raised
exception.  `chatTextStream` returns the fragments the iterator yielded
together with whether iteration completed without raising. -/

structure ChatClient where
  chatText : String → Int → Except Unit String
  chatTextStream : String → List String × Bool

/-- Helper for `reSplitAfterQ`: scan the characters, accumulating the current
chunk reversed in `acc`.  A match of `re.split(r"(?<=[?])\s+", s)` starts at a
whitespace character whose predecessor in the original string is `?` and
greedily covers the whole whitespace run; `inSep` records being inside such a
run (so the predecessor of the current character is whitespace, never `?`). -/
def splitQAux : List Char → List Char → Bool → List (List Char)
  | [], acc, _ => [acc.reverse]
  | c :: rest, acc, inSep =>
    if inSep then
      if isPySpace c then splitQAux rest acc true
      else splitQAux rest [c] false
    else if isPySpace c ∧ acc.headD ' ' = '?' then
      acc.reverse :: splitQAux rest [] true
    else splitQAux rest (c :: acc) false

/-- Model of `re.split(r"(?<=[?])\s+", s)` from `_fallback_continuity`. -/
def reSplitAfterQ (s : String) : List String :=
  (splitQAux s.data [] false).map fun w => ⟨w⟩

/-- Model of Python `chunk.endswith("?")`: the last character is `?`. -/
def endsWithQuestion (s : String) : Bool :=
  s.data.getLast? = some '?'

/-- Model of `Orchestrator._fallback_continuity`. -/
def fallback_continuity (priorActive priorThreads : List String)
    (userInput : String) : List String × List String :=
  let chunks := (reSplitAfterQ (pyStrip userInput)).map pyStrip
  let questions := chunks.filter fun c => endsWithQuestion c
  let threads := (questions.take 3).foldl
    (fun ts q => if q ∈ ts then ts else ts ++ [q]) priorThreads
  (priorActive, threads)

/-- The shape of the parsed continuity-update object: each key is either
absent / not a list (`none`) or a list whose non-string items are `none`. -/
structure ContinuityParsed where
  active_context : Option (List (Option String)) := none
  open_threads : Option (List (Option String)) := none
  resolved_threads : Option (List (Option String)) := none
deriving DecidableEq

def firstIdxOf (c : Char) (l : List Char) : Option Nat :=
  l.findIdx? (· = c)

def lastIdxOf (c : Char) (l : List Char) : Option Nat :=
  match l.reverse.findIdx? (· = c) with
  | none => none
  | some i => some (l.length - 1 - i)

/-- Model of `_parse_continuity_json`.  `jsonLoads` models the external
`json.loads` on the brace-delimited snippet combined with the
`isinstance(obj, dict)` check; it returns `none` when `loads` raises or the
value is not a dict.  Since `_update_continuity` tests the result with
`if not data:`, a parsed *empty* object behaves identically to `None`, and is
therefore also modelled as `none`. -/
def parse_continuity_json (jsonLoads : String → Option ContinuityParsed)
    (text : String) : Option ContinuityParsed :=
  if text = "" then none
  else
    match firstIdxOf '\x7b' text.data, lastIdxOf '\x7d' text.data with
    | some start, some stop =>
      if stop ≤ start then none
      else
        let snippet : String := ⟨(text.data.drop start).take (stop + 1 - start)⟩
        jsonLoads snippet
    | some _, none => none
    | none, _ => none

/-- The item loop of `_clean_continuity_list`: skip non-strings, collapse
whitespace, drop empties, truncate over-140-character entries, deduplicate by
exact text and stop once `limit` entries are collected. -/
def cleanLoop (limit : Nat) : List (Option String) → List String → List String
  | [], out => out
  | item :: rest, out =>
    match item with
    | none => cleanLoop limit rest out
    | some s =>
      let text := collapseWS s
      if text = "" then cleanLoop limit rest out
      else
        let text := if 140 < text.length then text.take 137 ++ "..." else text
        let out := if text ∈ out then out else out ++ [text]
        if limit ≤ out.length then out else cleanLoop limit rest out

/-- Model of `_clean_continuity_list`. -/
def clean_continuity_list (value : Option (List (Option String)))
    (limit : Nat) : List String :=
  match value with
  | none => []
  | some items => cleanLoop limit items []

/-- First loop of `_merge_open_threads`: keep prior threads that are not
blank, not resolved, and not yet seen. -/
def mergePriorLoop (resolvedNorm : List String) :
    List String → List String → List String → List String × List String
  | [], kept, seen => (kept, seen)
  | t :: rest, kept, seen =>
    let nt := normText t
    if nt = "" ∨ nt ∈ resolvedNorm then mergePriorLoop resolvedNorm rest kept seen
    else if nt ∈ seen then mergePriorLoop resolvedNorm rest kept seen
    else mergePriorLoop resolvedNorm rest (kept ++ [t]) (seen ++ [nt])

/-- Second loop of `_merge_open_threads`: append new threads, deduplicated,
breaking once `max(1, limit)` entries are held. -/
def mergeNewLoop (lim : Nat) : List String → List String → List String → List String
  | [], kept, _ => kept
  | t :: rest, kept, seen =>
    let nt := normText t
    if nt = "" ∨ nt ∈ seen then mergeNewLoop lim rest kept seen
    else
      let kept := kept ++ [t]
      let seen := seen ++ [nt]
      if lim ≤ kept.length then kept
      else mergeNewLoop lim rest kept seen

/-- Model of `_merge_open_threads`. -/
def merge_open_threads (priorThreads newThreads resolvedThreads : List String)
    (limit : Int) : List String :=
  let resolvedNorm := resolvedThreads.map normText
  let lim : Nat := (max 1 limit).toNat
  let ks := mergePriorLoop resolvedNorm priorThreads [] []
  let kept := mergeNewLoop lim newThreads ks.1 ks.2
  kept.take lim

/-- Model of `Orchestrator._update_continuity`.  `dumps` models the external
`json.dumps` rendering of the payload dict (prior active context, prior open
threads, user input, assistant output; `stm_anchors` is always `[]`). -/
def update_continuity (jsonLoads : String → Option ContinuityParsed)
    (dumps : List String → List String → String → String → String)
    (continuityPrompt : String) (chat : ChatClient)
    (priorActive priorThreads : List String)
    (userInput assistantOutput : String) : List String × List String :=
  if pyStrip assistantOutput = "" then (priorActive, priorThreads)
  else
    let prompt := continuityPrompt ++ "\n\nINPUTS:\n" ++
      dumps priorActive priorThreads userInput assistantOutput
    match chat.chatText prompt 500 with
    | .error _ => (priorActive, priorThreads)
    | .ok rawText =>
      let raw := pyStrip rawText
      match parse_continuity_json jsonLoads raw with
      | none => fallback_continuity priorActive priorThreads userInput
      | some data =>
        let active := clean_continuity_list data.active_context 6
        let newThreads := clean_continuity_list data.open_threads 4
        let resolved := clean_continuity_list data.resolved_threads 4
        let threads := merge_open_threads priorThreads newThreads resolved 4
        if active = [] ∧ threads = [] then
          fallback_continuity priorActive priorThreads userInput
        else (active, threads)

/-- The coarse-pass instruction from `_rebuild_summary`. -/
def coarsePrompt : String :=
  "Summarize the conversation neutrally. Include: goals discussed, decisions made, constraints, unresolved questions. No instructions, no speculation, no memory claims."

/-- The refine-pass instruction from `_rebuild_summary`. -/
def refinedPrompt : String :=
  "Refine this into a concise Conversation Summary for continuity. Keep neutral descriptive posture. Do not add facts not present."

/-- Model of `Orchestrator._summary_pass`.  On any exception from the chat client the
source text is returned unchanged (`except Exception: return source_text`). -/
def summary_pass (tok : Tok) (budget : ContextBudget) (systemPrompt : String)
    (chat : ChatClient) (instruction sourceText : String) : String :=
  let userPayload := instruction ++ "\n\nSOURCE:\n" ++ sourceText
  let base := count_buckets tok budget systemPrompt "" [] "" userPayload
  let available : Int := budget.model_window_tokens -
    (base.used_without_reserve : Int) - budget.reserved_buffer_tokens
  let maxTokens : Int := max 256 (min 2000 (if 0 < available then available else 256))
  match chat.chatText userPayload maxTokens with
  | .ok out => pyStrip out
  | .error _ => sourceText

/-- Model of `Orchestrator._rebuild_summary`: two passes, then a hard truncation to
`max(256, summary_target_tokens)` tokens. -/
def rebuild_summary (tok : Tok) (budget : ContextBudget) (systemPrompt : String)
    (chat : ChatClient) (priorSummary : String) (liveChat : List Turn) : String :=
  let transcript := render_chat_first_prompt priorSummary liveChat "" ""
  let coarse := summary_pass tok budget systemPrompt chat coarsePrompt transcript
  let refined := summary_pass tok budget systemPrompt chat refinedPrompt coarse
  let maxSummary : Int := max 256 budget.summary_target_tokens
  truncate_to_tokens tok (pyStrip refined) maxSummary

/-- The pre-stream pipeline of `run_turn_stream`: read the snapshot, decide
and perform the rebuild, fit the live chat to the budget, and render the
prompt.  `retain` is `cfg.live_chat_retain_turns_after_rebuild`. -/
structure TurnPrep where
  summary : String
  liveChat : List Turn
  preMetrics : Metrics
  fitMetrics : Metrics
  rebuilt : Bool
  promptUser : String

def prepareTurn (tok : Tok) (budget : ContextBudget) (retain : Int)
    (systemPrompt : String) (chat : ChatClient)
    (st : BobState) (userInput : String) : TurnPrep :=
  let summary := st.conversation_summary
  let liveChat := st.live_chat
  let toolInjections := ""
  let preMetrics := count_buckets tok budget systemPrompt summary liveChat
    toolInjections userInput
  let slr :=
    if (preMetrics.live_chat_buffer : Int) > budget.live_chat_target_tokens ∨
        preMetrics.pressure then
      (rebuild_summary tok budget systemPrompt chat summary liveChat,
       keep_last_turns liveChat retain, true)
    else (summary, liveChat, false)
  let fitRes := fit_live_chat_to_budget tok budget systemPrompt slr.1
    toolInjections userInput slr.2.1
  let promptUser := render_chat_first_prompt slr.1 fitRes.1 userInput toolInjections
  { summary := slr.1
    liveChat := fitRes.1
    preMetrics := preMetrics
    fitMetrics := fitRes.2
    rebuilt := slr.2.2
    promptUser := promptUser }

/-- The user-message content of the streaming response call. -/
def streamUserContent (respondRules promptUser : String) : String :=
  respondRules ++ "\n\n" ++ promptUser ++ "\n\nRespond to the user."

/-- Model of `Orchestrator.run_turn_stream` for one turn on the persisted state `st`
(the `Session` counter and the audit-log append do not touch `BobState` and
are omitted).  Returns the fragments yielded to the caller, whether the stream
was drained without raising, and the state held by the `StateStore` after the
call.  When the stream raises (`completed = false`) the generator propagates
the exception: none of the code after the stream loop runs, in particular
`commit` is never invoked, so the store still holds `st`. -/
def run_turn_stream (tok : Tok) (budget : ContextBudget) (retain : Int)
    (systemPrompt respondRules continuityPrompt : String)
    (jsonLoads : String → Option ContinuityParsed)
    (dumps : List String → List String → String → String → String)
    (chat : ChatClient) (now : String)
    (st : BobState) (userInput : String) : List String × Bool × BobState :=
  let p := prepareTurn tok budget retain systemPrompt chat st userInput
  let streamRes := chat.chatTextStream (streamUserContent respondRules p.promptUser)
  if streamRes.2 = false then (streamRes.1, false, st)
  else
    let outBuf := String.join streamRes.1
    let liveChatAfter := p.liveChat ++
      [⟨"user", userInput⟩, ⟨"assistant", pyStrip outBuf⟩]
    let postMetrics := count_buckets tok budget systemPrompt p.summary
      liveChatAfter "" ""
    let at_ := update_continuity jsonLoads dumps continuityPrompt chat
      st.active_context st.open_threads userInput outBuf
    let ctxMetrics : CtxMetrics :=
      { pre := p.preMetrics, fit := p.fitMetrics, post := postMetrics,
        rebuild_triggered := p.rebuilt }
    let args : CommitArgs :=
      { active_context := some at_.1
        open_threads := some at_.2
        conversation_summary := some p.summary
        live_chat := some liveChatAfter
        context_metrics := some ctxMetrics
        last_context_rebuild := if p.rebuilt then some now else st.last_context_rebuild }
    (streamRes.1, true, commit now st args)

/-! ## Heap model of the `fit_live_chat_to_budget` call

Python lists are mutable objects; `fit_live_chat_to_budget` receives a
reference to the caller's list and immediately copies it
(`msgs = list(live_chat_messages or [])`).  To state the frame property we
model the two list cells explicitly: `caller` is the caller's object, and the
eviction loop's `msgs.pop(0)` rewrites only the local cell. -/

structure PyListHeap where
  caller : List Turn
  msgs : List Turn
deriving DecidableEq

/-- The eviction loop acting on the heap: `msgs.pop(0)` replaces the contents
of the `msgs` cell with its tail; the `caller` cell is never assigned. -/
def fitHeapLoop (tok : Tok) (budget : ContextBudget)
    (system_block conversation_summary tool_injections current_user_input : String)
    (caller : List Turn) : List Turn → PyListHeap × Metrics
  | [] =>
    (⟨caller, []⟩, count_buckets tok budget system_block conversation_summary []
        tool_injections current_user_input)
  | m :: rest =>
    let metrics := count_buckets tok budget system_block conversation_summary
      (m :: rest) tool_injections current_user_input
    if metrics.pressure then
      fitHeapLoop tok budget system_block conversation_summary tool_injections
        current_user_input caller rest
    else (⟨caller, m :: rest⟩, metrics)

/-- The full call `fit_live_chat_to_budget(live_chat_messages=...)` on the
heap: copy the argument into a fresh cell, then run the eviction loop. -/
def fit_live_chat_call (tok : Tok) (budget : ContextBudget)
    (system_block conversation_summary tool_injections current_user_input : String)
    (live_chat_messages : List Turn) : PyListHeap × Metrics :=
  fitHeapLoop tok budget system_block conversation_summary tool_injections
    current_user_input live_chat_messages live_chat_messages

/-- A concrete tokenizer instance for witnesses: every character is one
token. -/
def charTok : Tok :=
  { encode := fun s => s.data.map Char.toNat
    decode := fun ids => ⟨ids.map Char.ofNat⟩ }

/-- A chat client whose `chat_text` raises on every call and whose stream
raises before yielding anything. -/
def failClient : ChatClient :=
  { chatText := fun _ _ => .error ()
    chatTextStream := fun _ => ([], false) }

/-- A chat client whose `chat_text` always returns text containing no JSON
object and whose stream yields one fragment and completes. -/
def noJsonClient : ChatClient :=
  { chatText := fun _ _ => .ok "no json here"
    chatTextStream := fun _ => (["ok"], true) }

/-- A fresh continuity state (all dataclass defaults). -/
def initState : BobState := {}

end Bob

namespace Bob

/-! ## Theorems -/

/-- Claim C1: for every budget and every combination of system block,
conversation summary, live-chat sequence, tool injections and current user
input, `fit_live_chat_to_budget` returns a contiguous suffix of the input
live-chat sequence (every retained turn verbatim, never reordered, never
partially edited), and in the returned metrics either the `pressure` flag is
false or the returned sequence is empty. -/
theorem C1_fit_live_chat_suffix_pressure (tok : Tok) (budget : ContextBudget)
    (system_block conversation_summary tool_injections current_user_input : String)
    (live : List Turn) :
    List.IsSuffix
        (fit_live_chat_to_budget tok budget system_block conversation_summary
          tool_injections current_user_input live).1 live ∧
      ((fit_live_chat_to_budget tok budget system_block conversation_summary
          tool_injections current_user_input live).2.pressure = false ∨
        (fit_live_chat_to_budget tok budget system_block conversation_summary
          tool_injections current_user_input live).1 = []) := by
  induction live with
  | nil =>
    refine ⟨List.nil_suffix, Or.inr ?_⟩
    simp [fit_live_chat_to_budget]
  | cons m rest ih =>
    simp only [fit_live_chat_to_budget]
    by_cases hp : (count_buckets tok budget system_block conversation_summary
        (m :: rest) tool_injections current_user_input).pressure
    · simp only [hp, if_true]
      exact ⟨ih.1.trans (List.suffix_cons m rest), ih.2⟩
    · simp only [hp, if_false]
      exact ⟨List.suffix_refl _, Or.inl (by simpa using hp)⟩

/-- Claim C6, counterexample: the claim demands at most `2·n` retained entries for
every `n ≥ 0`, but at `n = 0` the code computes `max(1, int(turns or 1)) = 1`
and keeps the last two entries of a three-entry list. -/
theorem C6_counterexample :
    (keep_last_turns [⟨"user", "a"⟩, ⟨"assistant", "b"⟩, ⟨"user", "c"⟩] 0).length = 2 ∧
      ¬ (keep_last_turns [⟨"user", "a"⟩, ⟨"assistant", "b"⟩, ⟨"user", "c"⟩] 0).length ≤ 2 * 0 := by
  constructor
  · rfl
  · decide

/-- Claim C6, amended: for every message list and every integer `n`,
`keep_last_turns(messages, n)` returns a contiguous suffix of the input list —
each entry verbatim, in original order — of length at most `2 · max 1 n`
(so at most the last `2n` entries whenever `n ≥ 1`). -/
theorem C6_keep_last_turns_amended (messages : List Turn) (turns : Int) :
    List.IsSuffix (keep_last_turns messages turns) messages ∧
      ((keep_last_turns messages turns).length : Int) ≤ 2 * max 1 turns := by
  have hmax : max 1 (if turns = 0 then 1 else turns) = max 1 turns := by
    split
    · omega
    · rfl
  simp only [keep_last_turns, hmax]
  split
  · exact ⟨List.suffix_refl _, by omega⟩
  · refine ⟨List.drop_suffix _ _, ?_⟩
    rw [List.length_drop]
    omega

/-- Frame lemma for the heap model: the eviction loop never assigns the
caller's cell, and its local cell ends exactly as the value semantics
(`fit_live_chat_to_budget`) predicts. -/
theorem fitHeapLoop_frame (tok : Tok) (budget : ContextBudget)
    (system_block conversation_summary tool_injections current_user_input : String)
    (caller : List Turn) (msgs : List Turn) :
    (fitHeapLoop tok budget system_block conversation_summary tool_injections
        current_user_input caller msgs).1.caller = caller ∧
      (fitHeapLoop tok budget system_block conversation_summary tool_injections
          current_user_input caller msgs).1.msgs =
        (fit_live_chat_to_budget tok budget system_block conversation_summary
          tool_injections current_user_input msgs).1 := by
  induction msgs with
  | nil => exact ⟨rfl, rfl⟩
  | cons m rest ih =>
    simp only [fitHeapLoop, fit_live_chat_to_budget]
    by_cases hp : (count_buckets tok budget system_block conversation_summary
        (m :: rest) tool_injections current_user_input).pressure
    · simpa only [hp, if_true] using ih
    · simp only [hp, if_false]
      exact ⟨rfl, rfl⟩

/-- Claim C10: `fit_live_chat_to_budget` never mutates its `live_chat_messages`
argument — after the call the caller's list cell is element-for-element the
list passed in, evictions having been performed only on the internal copy
(whose final value is the function's first result). -/
theorem C10_fit_live_chat_no_mutation (tok : Tok) (budget : ContextBudget)
    (system_block conversation_summary tool_injections current_user_input : String)
    (live : List Turn) :
    (fit_live_chat_call tok budget system_block conversation_summary
        tool_injections current_user_input live).1.caller = live ∧
      (fit_live_chat_call tok budget system_block conversation_summary
          tool_injections current_user_input live).1.msgs =
        (fit_live_chat_to_budget tok budget system_block conversation_summary
          tool_injections current_user_input live).1 :=
  fitHeapLoop_frame tok budget system_block conversation_summary tool_injections
    current_user_input live live

/-- Claim C2, counterexample: the snapshot after `commit` does not reflect the
affect values exactly as passed — `AffectState.from_dict` clamps each scalar
into `[0,1]` and substitutes defaults for keys missing from the passed dict.
Committing `affect_state = {"curiosity": 5.0}` over a state whose `calm` is
`0` yields curiosity `1 ≠ 5` and calm `0.6 ≠ 0` (the prior value is not kept
either). -/
theorem C2_counterexample :
    ((commit "2026-01-01T00:00:00+00:00"
        { affect_state := { calm := 0 } }
        { affect_state := some { curiosity := some 5 } }).affect_state.curiosity = 1 ∧
      (1 : ℚ) ≠ 5) ∧
      ((commit "2026-01-01T00:00:00+00:00"
        { affect_state := { calm := 0 } }
        { affect_state := some { curiosity := some 5 } }).affect_state.calm = 0.6 ∧
      (0.6 : ℚ) ≠ 0) := by
  refine ⟨⟨?_, by norm_num⟩, ⟨?_, by norm_num⟩⟩ <;> rfl

/-- Claim C2, amended: after `commit(...)`, the immediately following
`snapshot()` (a deep copy of the state below) reflects, for each field passed,
the value the store derives from it — lists and metrics copied verbatim,
`conversation_summary`/`tone_active` taken as given,
`affect_state` via `AffectState.from_dict` (clamped to `[0,1]`, defaults for
missing keys), `integrity` via `IntegrityState.from_dict` — `turn_counter` is
incremented by exactly one, `last_updated_utc` is set to the commit time, and
every field not passed (including the identity fields other than
`tone_active`) is unchanged from the previous state. -/
theorem C2_commit_frame (now : String) (s : BobState) (a : CommitArgs) :
    (commit now s a).active_context = a.active_context.getD s.active_context ∧
    (commit now s a).open_threads = a.open_threads.getD s.open_threads ∧
    (commit now s a).affect_state =
      (a.affect_state.map AffectState.from_dict).getD s.affect_state ∧
    (commit now s a).integrity =
      (a.integrity.map IntegrityState.from_dict).getD s.integrity ∧
    (commit now s a).identity.tone_active = a.tone_active.getD s.identity.tone_active ∧
    (commit now s a).identity.system_id = s.identity.system_id ∧
    (commit now s a).identity.display_name = s.identity.display_name ∧
    (commit now s a).identity.agent_name = s.identity.agent_name ∧
    (commit now s a).identity.version = s.identity.version ∧
    (commit now s a).identity.role = s.identity.role ∧
    (commit now s a).identity.core_directive = s.identity.core_directive ∧
    (commit now s a).identity.tone_baseline = s.identity.tone_baseline ∧
    (commit now s a).conversation_summary =
      a.conversation_summary.getD s.conversation_summary ∧
    (commit now s a).live_chat = a.live_chat.getD s.live_chat ∧
    (commit now s a).context_metrics =
      (a.context_metrics.map some).getD s.context_metrics ∧
    (commit now s a).last_context_rebuild =
      (a.last_context_rebuild.map some).getD s.last_context_rebuild ∧
    (commit now s a).turn_counter = s.turn_counter + 1 ∧
    (commit now s a).last_updated_utc = some now := by
  have h1 : ∀ t : BobState, (match a.active_context with
      | none => t
      | some v => { t with active_context := v }) =
      { t with active_context := a.active_context.getD t.active_context } := by
    intro t; cases a.active_context <;> rfl
  have h2 : ∀ t : BobState, (match a.open_threads with
      | none => t
      | some v => { t with open_threads := v }) =
      { t with open_threads := a.open_threads.getD t.open_threads } := by
    intro t; cases a.open_threads <;> rfl
  have h3 : ∀ t : BobState, (match a.affect_state with
      | none => t
      | some v => { t with affect_state := AffectState.from_dict v }) =
      { t with affect_state :=
          (a.affect_state.map AffectState.from_dict).getD t.affect_state } := by
    intro t; cases a.affect_state <;> rfl
  have h4 : ∀ t : BobState, (match a.integrity with
      | none => t
      | some v => { t with integrity := IntegrityState.from_dict v }) =
      { t with integrity :=
          (a.integrity.map IntegrityState.from_dict).getD t.integrity } := by
    intro t; cases a.integrity <;> rfl
  have h5 : ∀ t : BobState, (match a.tone_active with
      | none => t
      | some v => { t with identity := { t.identity with tone_active := v } }) =
      { t with identity :=
          { t.identity with tone_active := a.tone_active.getD t.identity.tone_active } } := by
    intro t; cases a.tone_active <;> rfl
  have h6 : ∀ t : BobState, (match a.conversation_summary with
      | none => t
      | some v => { t with conversation_summary := v }) =
      { t with conversation_summary :=
          a.conversation_summary.getD t.conversation_summary } := by
    intro t; cases a.conversation_summary <;> rfl
  have h7 : ∀ t : BobState, (match a.live_chat with
      | none => t
      | some v => { t with live_chat := v }) =
      { t with live_chat := a.live_chat.getD t.live_chat } := by
    intro t; cases a.live_chat <;> rfl
  have h8 : ∀ t : BobState, (match a.context_metrics with
      | none => t
      | some v => { t with context_metrics := some v }) =
      { t with context_metrics := (a.context_metrics.map some).getD t.context_metrics } := by
    intro t; cases a.context_metrics <;> rfl
  have h9 : ∀ t : BobState, (match a.last_context_rebuild with
      | none => t
      | some v => { t with last_context_rebuild := some v }) =
      { t with last_context_rebuild :=
          (a.last_context_rebuild.map some).getD t.last_context_rebuild } := by
    intro t; cases a.last_context_rebuild <;> rfl
  simp only [commit, h1, h2, h3, h4, h5, h6, h7, h8, h9]
  refine ⟨?_, ?_, ?_, ?_, ?_, ?_, ?_, ?_, ?_, ?_, ?_, ?_, ?_, ?_, ?_, ?_, ?_, ?_⟩ <;>
    first
    | rfl
    | trivial

/-- Claim C3: `_rebuild_summary` is a total function of the chat client's
behaviour — it returns a string and never propagates an exception (client
failures are absorbed inside `_summary_pass`).  When a pass's model call
raises, that pass returns its input text unchanged; hence for a client that
raises on every call, both passes fall through and the prior material — the
rendered prior-summary + live-chat transcript — survives into the final
truncation. -/
theorem C3_rebuild_summary_never_raises (tok : Tok) (budget : ContextBudget)
    (systemPrompt : String) (chat : ChatClient) (priorSummary : String)
    (liveChat : List Turn)
    (hfail : ∀ p m, chat.chatText p m = .error ()) :
    (∀ instruction sourceText,
        summary_pass tok budget systemPrompt chat instruction sourceText = sourceText) ∧
      rebuild_summary tok budget systemPrompt chat priorSummary liveChat =
        truncate_to_tokens tok
          (pyStrip (render_chat_first_prompt priorSummary liveChat "" ""))
          (max 256 budget.summary_target_tokens) := by
  have hp : ∀ instruction sourceText,
      summary_pass tok budget systemPrompt chat instruction sourceText = sourceText := by
    intro instruction sourceText
    simp only [summary_pass]
    rw [hfail]
  refine ⟨hp, ?_⟩
  simp only [rebuild_summary, hp]

/-- Witness for C3: a concrete always-raising client, budget and prior
material. -/
theorem C3_witness :
    (∀ p m, failClient.chatText p m = .error ()) ∧
      ((∀ instruction sourceText,
          summary_pass charTok ⟨1000, 200, 400, 100⟩ "sys" failClient
            instruction sourceText = sourceText) ∧
        rebuild_summary charTok ⟨1000, 200, 400, 100⟩ "sys" failClient
            "the prior summary" [⟨"user", "hi"⟩] =
          truncate_to_tokens charTok
            (pyStrip (render_chat_first_prompt "the prior summary"
              [⟨"user", "hi"⟩] "" ""))
            (max 256 (200 : Int))) :=
  ⟨fun _ _ => rfl,
    C3_rebuild_summary_never_raises charTok ⟨1000, 200, 400, 100⟩ "sys" failClient
      "the prior summary" [⟨"user", "hi"⟩] (fun _ _ => rfl)⟩

/-- Lemma from the tokenizer-adapter contract of spec §4.1 for the external tokenizer: decoding a
token-id list and re-encoding it never yields more tokens than the list held.
This is exactly what makes `truncate_to_tokens` return a text of at most
`max_tokens` tokens. -/
theorem truncate_to_tokens_count_le (tok : Tok)
    (htok : ∀ ids, tok.count (tok.decode ids) ≤ ids.length)
    (text : String) (m : Int) (hm : 0 < m) :
    (tok.count (truncate_to_tokens tok text m) : Int) ≤ m := by
  simp only [truncate_to_tokens]
  rw [if_neg (by omega)]
  split
  · next h => exact_mod_cast h
  · next h =>
    have h1 := htok ((tok.encode text).take m.toNat)
    have h2 : ((tok.encode text).take m.toNat).length ≤ m.toNat :=
      (List.length_take _ _).trans_le (min_le_left _ _)
    omega

/-- Claim C8: for every tokenizer satisfying the §4.1 adapter contract, every
configuration, prior summary, live-chat buffer and chat-client behaviour, the
string returned by `_rebuild_summary` has a token count of at most
`max(256, summary_target_tokens)`. -/
theorem C8_rebuild_summary_token_bound (tok : Tok)
    (htok : ∀ ids, tok.count (tok.decode ids) ≤ ids.length)
    (budget : ContextBudget) (systemPrompt : String) (chat : ChatClient)
    (priorSummary : String) (liveChat : List Turn) :
    (tok.count (rebuild_summary tok budget systemPrompt chat priorSummary liveChat) : Int) ≤
      max 256 budget.summary_target_tokens := by
  unfold rebuild_summary
  exact truncate_to_tokens_count_le tok htok _ _
    (lt_of_lt_of_le (by norm_num) (le_max_left _ _))

/-- Witness for C8: the character tokenizer satisfies the adapter contract
(decode then encode is length-preserving), and the bound holds at a concrete
rebuild. -/
theorem C8_witness :
    (∀ ids, charTok.count (charTok.decode ids) ≤ ids.length) ∧
      (charTok.count (rebuild_summary charTok ⟨1000, 200, 400, 100⟩ "sys" failClient
          "prior" [⟨"user", "hello there"⟩]) : Int) ≤ max 256 (200 : Int) := by
  have h : ∀ ids, charTok.count (charTok.decode ids) ≤ ids.length := by
    intro ids
    simp [charTok, Tok.count]
  exact ⟨h, C8_rebuild_summary_token_bound charTok h ⟨1000, 200, 400, 100⟩ "sys"
    failClient "prior" [⟨"user", "hello there"⟩]⟩

/-- Claim C4: if the streaming response call raises at any point before the
stream is fully drained during `run_turn_stream`, the persisted
`ContinuityState` is unmodified — `commit` is never invoked for that turn, so
the store still holds exactly the snapshot taken at turn start (hence
`turn_counter`, `live_chat`, `conversation_summary`, `active_context` and
`open_threads` are all unchanged). -/
theorem C4_stream_failure_no_commit (tok : Tok) (budget : ContextBudget)
    (retain : Int) (systemPrompt respondRules continuityPrompt : String)
    (jsonLoads : String → Option ContinuityParsed)
    (dumps : List String → List String → String → String → String)
    (chat : ChatClient) (now : String) (st : BobState) (userInput : String)
    (hstream : (chat.chatTextStream (streamUserContent respondRules
        (prepareTurn tok budget retain systemPrompt chat st userInput).promptUser)).2
      = false) :
    (run_turn_stream tok budget retain systemPrompt respondRules continuityPrompt
        jsonLoads dumps chat now st userInput).2.2 = st := by
  simp [run_turn_stream, hstream]

/-- Witness for C4: a client whose stream raises immediately leaves a concrete
initial state untouched. -/
theorem C4_witness :
    (failClient.chatTextStream (streamUserContent ""
        (prepareTurn charTok ⟨1000, 200, 400, 100⟩ 4 "" failClient {} "hi").promptUser)).2
      = false ∧
      (run_turn_stream charTok ⟨1000, 200, 400, 100⟩ 4 "" "" "" (fun _ => none)
          (fun _ _ _ _ => "") failClient "t0" {} "hi").2.2 = ({} : BobState) :=
  ⟨rfl, C4_stream_failure_no_commit charTok ⟨1000, 200, 400, 100⟩ 4 "" "" ""
    (fun _ => none) (fun _ _ _ _ => "") failClient "t0" {} "hi" rfl⟩

/-- Appending with membership-deduplication grows a list by at most one entry
per item processed. -/
theorem foldl_dedup_append_length_le (l : List String) (ts : List String) :
    (l.foldl (fun ts q => if q ∈ ts then ts else ts ++ [q]) ts).length ≤
      ts.length + l.length := by
  induction l generalizing ts with
  | nil => simp
  | cons q rest ih =>
    simp only [List.foldl_cons, List.length_cons]
    split
    · exact (ih ts).trans (by omega)
    · refine (ih (ts ++ [q])).trans ?_
      simp only [List.length_append, List.length_singleton]
      omega

/-- Lemma: `_fallback_continuity` appends at most 3 entries to the prior
open-threads list. -/
theorem fallback_continuity_threads_le (pa pt : List String) (ui : String) :
    (fallback_continuity pa pt ui).2.length ≤ pt.length + 3 := by
  simp only [fallback_continuity]
  refine (foldl_dedup_append_length_le _ _).trans ?_
  have h := List.length_take 3
    (((reSplitAfterQ (pyStrip ui)).map pyStrip).filter fun c => endsWithQuestion c)
  omega

/-- Lemma: `_merge_open_threads` with limit 4 returns at most 4 entries. -/
theorem merge_open_threads_length_le (pt nt rt : List String) :
    (merge_open_threads pt nt rt 4).length ≤ 4 := by
  simp only [merge_open_threads]
  have h4 : ((max 1 (4 : Int)).toNat) = 4 := rfl
  rw [h4]
  exact (List.length_take _ _).trans_le (min_le_left _ _)

/-- Claim C7, amended: the committed open-threads list produced by a turn's
continuity update has length at most `max 4 (prior length + 3)`: a turn whose
update takes the structured-merge path leaves at most 4 entries, but a turn
that takes the parse-failure fallback path may append up to 3 entries to the
prior list with no cap, so the unconditional ≤ 4 invariant fails (see the
counterexample). -/
theorem C7_open_threads_growth_bound
    (jsonLoads : String → Option ContinuityParsed)
    (dumps : List String → List String → String → String → String)
    (continuityPrompt : String) (chat : ChatClient)
    (pa pt : List String) (ui ao : String) :
    (update_continuity jsonLoads dumps continuityPrompt chat pa pt ui ao).2.length ≤
      max 4 (pt.length + 3) := by
  simp only [update_continuity]
  split
  · exact le_max_of_le_right (Nat.le_add_right _ _)
  · split
    · exact le_max_of_le_right (Nat.le_add_right _ _)
    · split
      · exact (fallback_continuity_threads_le _ _ _).trans
          (le_max_of_le_right (by omega))
      · split
        · exact (fallback_continuity_threads_le _ _ _).trans
            (le_max_of_le_right (by omega))
        · exact (merge_open_threads_length_le _ _ _).trans (le_max_left _ _)

/-- Claim C7, counterexample: a continuity state reachable by two committed
orchestrator turns — both taking the parse-failure fallback path (the model
output `"no json here"` contains no JSON object) — holds 5 open threads,
violating the claimed ≤ 4 bound. -/
theorem C7_counterexample :
    (run_turn_stream charTok ⟨100000, 200, 5000, 0⟩ 4 "" "" "" (fun _ => none)
        (fun _ _ _ _ => "") noJsonClient "t2"
        ((run_turn_stream charTok ⟨100000, 200, 5000, 0⟩ 4 "" "" "" (fun _ => none)
          (fun _ _ _ _ => "") noJsonClient "t1" initState "Is it A? Is it B? Is it C?").2.2)
        "Is it D? Is it E?").2.2.open_threads.length = 5 ∧ ¬ (5 : Nat) ≤ 4 := by
  constructor
  · decide
  · decide

/-- With no resolved threads, the prior loop of `_merge_open_threads` keeps
every entry whose normalization is non-empty, pairwise distinct, and not yet
seen. -/
theorem mergePriorLoop_keeps_all (pt : List String) :
    ∀ kept seen, (∀ t ∈ pt, normText t ≠ "") → (pt.map normText).Nodup →
      (∀ t ∈ pt, normText t ∉ seen) →
      mergePriorLoop [] pt kept seen = (kept ++ pt, seen ++ pt.map normText) := by
  induction pt with
  | nil =>
    intro kept seen _ _ _
    simp [mergePriorLoop]
  | cons t rest ih =>
    intro kept seen hne hnd hseen
    have hnt : normText t ≠ "" := hne t (List.mem_cons_self t rest)
    have hnseen : normText t ∉ seen := hseen t (List.mem_cons_self t rest)
    have hnd' : (normText t :: rest.map normText).Nodup := by simpa using hnd
    have hhead : normText t ∉ rest.map normText := (List.nodup_cons.mp hnd').1
    have h2 : ∀ t' ∈ rest, normText t' ≠ "" := fun t' ht' =>
      hne t' (List.mem_cons_of_mem _ ht')
    have h3 : (rest.map normText).Nodup := (List.nodup_cons.mp hnd').2
    have h4 : ∀ t' ∈ rest, normText t' ∉ seen ++ [normText t] := by
      intro t' ht'
      have hs : normText t' ∉ seen := hseen t' (List.mem_cons_of_mem _ ht')
      have hd : normText t' ≠ normText t := by
        intro heq
        exact hhead (heq ▸ List.mem_map_of_mem normText ht')
      simp [List.mem_append, hs, hd]
    have h1 : ¬ (normText t = "" ∨ normText t ∈ ([] : List String)) := by
      simp [hnt]
    simp only [mergePriorLoop]
    rw [if_neg h1, if_neg hnseen, ih (kept ++ [t]) (seen ++ [normText t]) h2 h3 h4]
    simp [List.append_assoc]

/-- Claim C9, amended: for every prior open-threads list whose entries are
non-blank (whitespace-collapsing lowercase normalization is non-empty), at
most 4 in number, and pairwise distinct under that normalization, merging a
structured update that reports `open_threads = []` and `resolved_threads = []`
returns the prior list unchanged, in order. -/
theorem C9_merge_noop_on_empty_update (pt : List String)
    (hne : ∀ t ∈ pt, normText t ≠ "")
    (hnd : (pt.map normText).Nodup)
    (hlen : pt.length ≤ 4) :
    merge_open_threads pt [] [] 4 = pt := by
  simp only [merge_open_threads, List.map_nil]
  rw [show ((max 1 (4 : Int)).toNat) = 4 from rfl]
  rw [mergePriorLoop_keeps_all pt [] [] hne hnd (by simp)]
  simp only [mergeNewLoop, List.nil_append]
  exact List.take_of_length_le hlen

/-- Witness for C9 (amended): a concrete prior list satisfying the
hypotheses round-trips through the merge unchanged. -/
theorem C9_witness :
    (∀ t ∈ ["Send the report?", "Book flights"], normText t ≠ "") ∧
      ((["Send the report?", "Book flights"].map normText).Nodup) ∧
      (["Send the report?", "Book flights"] : List String).length ≤ 4 ∧
      merge_open_threads ["Send the report?", "Book flights"] [] [] 4 =
        ["Send the report?", "Book flights"] :=
  ⟨by decide, by decide, by decide,
    C9_merge_noop_on_empty_update ["Send the report?", "Book flights"]
      (by decide) (by decide) (by decide)⟩

/-- Claim C9, counterexample: the claim's hypotheses admit a whitespace-only
entry — `" "` is a non-empty string, and a one-entry list is trivially
pairwise distinct — but `_merge_open_threads` drops it (its normalization is
empty), so the merged list is not the prior list. -/
theorem C9_counterexample :
    (" " : String) ≠ "" ∧ ([" "] : List String).length ≤ 4 ∧
      merge_open_threads [" "] [] [] 4 ≠ [" "] := by
  refine ⟨by decide, by decide, by decide⟩

/-- Claim C5: when the continuity-update model output contains no parseable JSON
object (here the chat client returns `"no json here"` on every call) and the
user input is `"What time is it? Also, where are we meeting?"`, the continuity
update returns `active_context` unchanged from the prior state and
`open_threads` equal to the prior list with the two `?`-terminated sentences
appended, deduplicated against the prior entries; in general the fallback
keeps `active_context` and appends at most 3 sentences. -/
theorem C5_fallback_on_unparseable_output
    (jl : String → Option ContinuityParsed)
    (dumps : List String → List String → String → String → String)
    (cp : String) (chat : ChatClient)
    (pa pt : List String) (ao : String)
    (hchat : ∀ p m, chat.chatText p m = .ok "no json here")
    (hao : pyStrip ao ≠ "")
    (h1 : "What time is it?" ∉ pt)
    (h2 : "Also, where are we meeting?" ∉ pt) :
    (∀ jl2, parse_continuity_json jl2 "no json here" = none) ∧
      update_continuity jl dumps cp chat pa pt
          "What time is it? Also, where are we meeting?" ao =
        (pa, pt ++ ["What time is it?", "Also, where are we meeting?"]) ∧
      (∀ ui, (fallback_continuity pa pt ui).1 = pa ∧
        (fallback_continuity pa pt ui).2.length ≤ pt.length + 3) := by
  have hparse : ∀ jl2, parse_continuity_json jl2 "no json here" = none :=
    fun _ => rfl
  have hps : pyStrip "no json here" = "no json here" := rfl
  have hfb : fallback_continuity pa pt "What time is it? Also, where are we meeting?" =
      (pa, pt ++ ["What time is it?", "Also, where are we meeting?"]) := by
    simp only [fallback_continuity]
    have hq : ((((reSplitAfterQ
        (pyStrip "What time is it? Also, where are we meeting?")).map
        pyStrip).filter fun c => endsWithQuestion c).take 3) =
        ["What time is it?", "Also, where are we meeting?"] := by decide
    rw [hq]
    simp only [List.foldl_cons, List.foldl_nil]
    rw [if_neg h1]
    have h2' : "Also, where are we meeting?" ∉ pt ++ ["What time is it?"] := by
      simp [List.mem_append, h2]
    rw [if_neg h2']
    simp [List.append_assoc]
  refine ⟨hparse, ?_, fun ui => ⟨rfl, fallback_continuity_threads_le pa pt ui⟩⟩
  simp only [update_continuity]
  rw [if_neg hao, hchat]
  simp only [hps, hparse, hfb]

/-- Witness for C5: concrete prior context and threads; the parse-failure
fallback appends exactly the two questions. -/
theorem C5_witness :
    pyStrip "ok" ≠ "" ∧
      ("What time is it?" ∉ (["prior thread?"] : List String)) ∧
      ("Also, where are we meeting?" ∉ (["prior thread?"] : List String)) ∧
      update_continuity (fun _ => none) (fun _ _ _ _ => "") "" noJsonClient
          ["ctx"] ["prior thread?"] "What time is it? Also, where are we meeting?" "ok" =
        (["ctx"], ["prior thread?", "What time is it?", "Also, where are we meeting?"]) :=
  ⟨by decide, by decide, by decide,
    (C5_fallback_on_unparseable_output (fun _ => none) (fun _ _ _ _ => "") ""
      noJsonClient ["ctx"] ["prior thread?"] "ok" (fun _ _ => rfl) (by decide)
      (by decide) (by decide)).2.1⟩

end Bob
